import Mathlib

/-!
# Verification of `test-image.py`

Shallow embedding of the script `test-image.py`: it reads the
`LETTA_API_KEY` environment variable, exits with an error when the
variable is falsy, otherwise fetches a fixed image URL, base64-encodes
the fetched bytes, sends a single user message (one image block followed
by one text block) to a fixed agent, and prints the response.

The embedding models the environment variable as an `Option String`,
the image fetch and the API call as oracles (`FetchResult`, `ApiResult`),
and a run of the script as a list of observable events together with an
outcome (normal completion, `exit 1`, or an uncaught exception).
The base64 encoder follows `base64.standard_b64encode` from the Python
standard library (RFC 4648 standard alphabet, `=` padding); the decoder
follows `base64.b64decode` on well-formed input (trailing bits of a
padded group are discarded, as CPython's `binascii` does).
-/

namespace TestImage

/-- The RFC 4648 standard base64 alphabet used by `base64.standard_b64encode`. -/
def b64Alphabet : List Char :=
  ['A', 'B', 'C', 'D', 'E', 'F', 'G', 'H', 'I', 'J', 'K', 'L', 'M',
   'N', 'O', 'P', 'Q', 'R', 'S', 'T', 'U', 'V', 'W', 'X', 'Y', 'Z',
   'a', 'b', 'c', 'd', 'e', 'f', 'g', 'h', 'i', 'j', 'k', 'l', 'm',
   'n', 'o', 'p', 'q', 'r', 's', 't', 'u', 'v', 'w', 'x', 'y', 'z',
   '0', '1', '2', '3', '4', '5', '6', '7', '8', '9', '+', '/']

/-- The alphabet character for a 6-bit value. -/
def b64Char (n : Nat) : Char := b64Alphabet.getD n 'A'

/-- The 6-bit value of an alphabet character, `none` off the alphabet. -/
def b64Val (c : Char) : Option Nat :=
  if c ∈ b64Alphabet then some (b64Alphabet.indexOf c) else none

/-- `base64.standard_b64encode` on a byte sequence (each byte `< 256`):
groups of three bytes become four alphabet characters; a trailing group
of one or two bytes is padded with `=`. -/
def b64encode : List Nat → List Char
  | [] => []
  | [a] => [b64Char (a / 4), b64Char (a % 4 * 16), '=', '=']
  | [a, b] => [b64Char (a / 4), b64Char (a % 4 * 16 + b / 16),
               b64Char (b % 16 * 4), '=']
  | a :: b :: c :: rest =>
      b64Char (a / 4) :: b64Char (a % 4 * 16 + b / 16) ::
      b64Char (b % 16 * 4 + c / 64) :: b64Char (c % 64) :: b64encode rest

/-- `base64.b64decode` on well-padded input: four characters at a time,
with `=` padding allowed only in the final group; trailing bits of a
padded group are discarded. Returns `none` on malformed input. -/
def b64decode : List Char → Option (List Nat)
  | [] => some []
  | c1 :: c2 :: c3 :: c4 :: rest =>
    (b64Val c1).bind fun v1 =>
    (b64Val c2).bind fun v2 =>
    if c3 = '=' then
      if c4 = '=' ∧ rest = [] then some [v1 * 4 + v2 / 16] else none
    else
      (b64Val c3).bind fun v3 =>
      if c4 = '=' then
        if rest = [] then
          some [v1 * 4 + v2 / 16, v2 % 16 * 16 + v3 / 4]
        else none
      else
        (b64Val c4).bind fun v4 =>
        (b64decode rest).bind fun bs =>
        some ((v1 * 4 + v2 / 16) :: (v2 % 16 * 16 + v3 / 4) ::
              (v3 % 4 * 64 + v4) :: bs)
  | _ => none

/-- `base64.standard_b64encode(...).decode("utf-8")` (line 14): the
encoded bytes as a string. -/
def image_data_of (bytes : List Nat) : String := ⟨b64encode bytes⟩

/-- The `source` object of the image content block (lines 24-28). -/
structure ImageSource where
  type : String
  media_type : String
  data : String
  deriving DecidableEq, Repr

/-- One content block of the message (lines 22-33). -/
inductive ContentBlock
  | image (source : ImageSource)
  | text (text : String)
  deriving DecidableEq, Repr

/-- The message object passed in `messages=[...]` (lines 19-35). -/
structure MessagePayload where
  role : String
  content : List ContentBlock
  deriving DecidableEq, Repr

/-- The fixed image URL (line 13). -/
def image_url : String :=
  "https://upload.wikimedia.org/wikipedia/commons/a/a7/Camponotus_flavomarginatus_ant.jpg"

/-- The fixed agent identifier (line 17). -/
def agent_id : String := "agent-bb780791-961a-4fa3-95ba-b681b6d508e6"

/-- The error message printed when the credential is missing (line 8). -/
def errorMessage : String := "Error: LETTA_API_KEY environment variable not set"

/-- The message constructed at lines 19-35 from the fetched image bytes. -/
def buildMessage (imageBytes : List Nat) : MessagePayload :=
  { role := "user",
    content := [ContentBlock.image
                  { type := "base64",
                    media_type := "image/jpeg",
                    data := image_data_of imageBytes },
                ContentBlock.text "Describe this image."] }

/-- The string stored in the `data` field of the first content block,
when that block is an image block. -/
def imageDataOf (m : MessagePayload) : Option String :=
  match m.content with
  | ContentBlock.image s :: _ => some s.data
  | _ => none

/-- Observable events of a run of the script. -/
inductive Event
  | printLine (s : String)
  | httpGet (url : String)
  | apiCall (agentId : String) (messages : List MessagePayload)
  | printResponse (r : String)
  deriving DecidableEq, Repr

/-- Oracle for `httpx.get(image_url).content`: either the fetched bytes
or an exception raised by the fetch. -/
inductive FetchResult
  | ok (content : List Nat)
  | err (e : String)
  deriving DecidableEq, Repr

/-- Oracle for `client.agents.messages.create(...)`: either a response
object (rendered as the string `print` would show) or an exception. -/
inductive ApiResult
  | ok (response : String)
  | err (e : String)
  deriving DecidableEq, Repr

/-- How a run of the script terminates. -/
inductive Outcome
  | exited (code : Nat)
  | raised (e : String)
  | completed
  deriving DecidableEq, Repr

/-- Python truthiness of `os.getenv('LETTA_API_KEY')` under `not token`
(line 7): `None` and the empty string are falsy. -/
def falsy : Option String → Bool
  | none => true
  | some s => s = ""

/-- A run of the whole script (lines 6-40) given the environment
variable and the two oracles: the list of observable events in order,
and the outcome. The script has no `try`/`except`, so an oracle error
becomes an uncaught `raised` outcome at the point it occurs. -/
def run (token : Option String) (fetch : FetchResult) (api : ApiResult) :
    List Event × Outcome :=
  if falsy token then
    ([Event.printLine errorMessage], Outcome.exited 1)
  else
    match fetch with
    | FetchResult.err e => ([Event.httpGet image_url], Outcome.raised e)
    | FetchResult.ok bytes =>
      match api with
      | ApiResult.err e =>
          ([Event.httpGet image_url,
            Event.apiCall agent_id [buildMessage bytes]], Outcome.raised e)
      | ApiResult.ok resp =>
          ([Event.httpGet image_url,
            Event.apiCall agent_id [buildMessage bytes],
            Event.printLine "Response:",
            Event.printResponse resp], Outcome.completed)

/-- Events that touch the network. -/
def isNetwork : Event → Bool
  | Event.httpGet _ => true
  | Event.apiCall _ _ => true
  | _ => false

/-- Events that are an outbound HTTP GET. -/
def isGet : Event → Bool
  | Event.httpGet _ => true
  | _ => false

end TestImage

namespace TestImage

/-- Decoding an alphabet character recovers its 6-bit value. -/
theorem b64Val_b64Char : ∀ n, n < 64 → b64Val (b64Char n) = some n := by decide

/-- Alphabet characters are never the padding character. -/
theorem b64Char_ne_pad : ∀ n, n < 64 → ¬(b64Char n = '=') := by decide

/-- Base64 round trip: decoding the standard encoding of a byte
sequence recovers the bytes. -/
theorem b64_roundtrip (bs : List Nat) (h : ∀ x ∈ bs, x < 256) :
    b64decode (b64encode bs) = some bs := by
  induction bs using b64encode.induct with
  | case1 => rfl
  | case2 a =>
    have ha : a < 256 := h a (by simp)
    simp only [b64encode, b64decode]
    rw [b64Val_b64Char _ (by omega), b64Val_b64Char _ (by omega)]
    simp only [Option.some_bind, if_pos rfl, and_self, if_pos]
    have h1 : a / 4 * 4 + a % 4 * 16 / 16 = a := by omega
    rw [h1]
  | case3 a b =>
    have ha : a < 256 := h a (by simp)
    have hb : b < 256 := h b (by simp)
    simp only [b64encode, b64decode]
    rw [b64Val_b64Char _ (by omega), b64Val_b64Char _ (by omega)]
    simp only [Option.some_bind]
    rw [if_neg (b64Char_ne_pad _ (by omega))]
    rw [b64Val_b64Char _ (by omega)]
    simp only [Option.some_bind, if_pos rfl]
    have h1 : a / 4 * 4 + (a % 4 * 16 + b / 16) / 16 = a := by omega
    have h2 : (a % 4 * 16 + b / 16) % 16 * 16 + b % 16 * 4 / 4 = b := by omega
    rw [h1, h2]
    simp
  | case4 a b c rest ih =>
    have ha : a < 256 := h a (by simp)
    have hb : b < 256 := h b (by simp)
    have hc : c < 256 := h c (by simp)
    have hrest : ∀ x ∈ rest, x < 256 := fun x hx => h x (by simp [hx])
    simp only [b64encode, b64decode]
    rw [b64Val_b64Char _ (by omega), b64Val_b64Char _ (by omega)]
    simp only [Option.some_bind]
    rw [if_neg (b64Char_ne_pad _ (by omega))]
    rw [b64Val_b64Char _ (by omega)]
    simp only [Option.some_bind]
    rw [if_neg (b64Char_ne_pad _ (by omega))]
    rw [b64Val_b64Char _ (by omega), ih hrest]
    simp only [Option.some_bind]
    have h1 : a / 4 * 4 + (a % 4 * 16 + b / 16) / 16 = a := by omega
    have h2 : (a % 4 * 16 + b / 16) % 16 * 16 + (b % 16 * 4 + c / 64) / 4 = b := by
      omega
    have h3 : (b % 16 * 4 + c / 64) % 4 * 64 + c % 64 = c := by omega
    rw [h1, h2, h3]

/-- An `apiCall` event occurs in a run exactly when the fetch succeeded,
and it always carries the fixed agent id and the single built message. -/
theorem apiCall_mem_run {tok : Option String} {fetch : FetchResult}
    {api : ApiResult} {a : String} {ms : List MessagePayload}
    (h : Event.apiCall a ms ∈ (run tok fetch api).1) :
    ∃ bytes, fetch = FetchResult.ok bytes ∧ a = agent_id ∧
      ms = [buildMessage bytes] := by
  unfold run at h
  by_cases hf : falsy tok
  · simp [hf] at h
  · cases fetch with
    | err e => simp [hf] at h
    | ok bytes =>
      cases api with
      | err e =>
        simp [hf] at h
        exact ⟨bytes, rfl, h.1, h.2⟩
      | ok r =>
        simp [hf] at h
        exact ⟨bytes, rfl, h.1, h.2⟩

end TestImage

namespace TestImage

/-- Claim C1: when `LETTA_API_KEY` is unset, the script prints the
error message and terminates with exit status 1, and no event of the
run touches the network (no HTTP GET and no API call). -/
theorem missing_key_exits_without_network (fetch : FetchResult) (api : ApiResult) :
    run none fetch api = ([Event.printLine errorMessage], Outcome.exited 1) ∧
    ∀ e ∈ (run none fetch api).1, isNetwork e = false := by
  refine ⟨rfl, ?_⟩
  intro e he
  have : e = Event.printLine errorMessage := by
    simpa [run, falsy] using he
  rw [this]
  rfl

/-- Witness for C1 at a concrete fetch and API oracle. -/
theorem missing_key_exits_without_network_witness :
    run none (FetchResult.ok [1, 2, 3]) (ApiResult.ok "resp") =
      ([Event.printLine errorMessage], Outcome.exited 1) ∧
    isNetwork (Event.printLine errorMessage) = false :=
  ⟨(missing_key_exits_without_network (FetchResult.ok [1, 2, 3]) (ApiResult.ok "resp")).1,
   (missing_key_exits_without_network (FetchResult.ok [1, 2, 3]) (ApiResult.ok "resp")).2
     (Event.printLine errorMessage) (by simp [run, falsy])⟩

/-- Claim C2: the payload's image data field holds the base64 encoding
of the fetched bytes, and decoding that string yields exactly the
fetched bytes. -/
theorem payload_data_roundtrip (bytes : List Nat) (h : ∀ x ∈ bytes, x < 256) :
    imageDataOf (buildMessage bytes) = some (image_data_of bytes) ∧
    b64decode (image_data_of bytes).toList = some bytes :=
  ⟨rfl, b64_roundtrip bytes h⟩

/-- Witness for C2 on the bytes of the ASCII string Man. -/
theorem payload_data_roundtrip_witness :
    imageDataOf (buildMessage [77, 97, 110]) = some (image_data_of [77, 97, 110]) ∧
    b64decode (image_data_of [77, 97, 110]).toList = some [77, 97, 110] :=
  payload_data_roundtrip [77, 97, 110] (by decide)

end TestImage

namespace TestImage

/-- Claim C3: in every run that reaches the API call, the call carries
exactly one message, whose content list is exactly two blocks: an image
block first and a text block second. -/
theorem payload_two_blocks_ordered (tok : Option String) (fetch : FetchResult)
    (api : ApiResult) (a : String) (ms : List MessagePayload)
    (h : Event.apiCall a ms ∈ (run tok fetch api).1) :
    ∃ src txt, ms.map MessagePayload.content =
      [[ContentBlock.image src, ContentBlock.text txt]] := by
  obtain ⟨bytes, _, _, hm⟩ := apiCall_mem_run h
  subst hm
  exact ⟨_, _, rfl⟩

/-- Witness for C3 at a concrete run. -/
theorem payload_two_blocks_ordered_witness :
    ∃ src txt, [buildMessage [5]].map MessagePayload.content =
      [[ContentBlock.image src, ContentBlock.text txt]] :=
  payload_two_blocks_ordered (some "key") (FetchResult.ok [5]) (ApiResult.ok "r")
    agent_id [buildMessage [5]] (by simp [run, falsy])

/-- Claim C4: the message list passed to the API call always has the
shape role user, content image block (source type base64, media type
image/jpeg) then text block, and the call always targets the fixed
agent identifier. -/
theorem payload_shape_fixed_agent (tok : Option String) (fetch : FetchResult)
    (api : ApiResult) (a : String) (ms : List MessagePayload)
    (h : Event.apiCall a ms ∈ (run tok fetch api).1) :
    a = agent_id ∧
    ∃ d, ms = [{ role := "user",
                 content := [ContentBlock.image
                               { type := "base64",
                                 media_type := "image/jpeg",
                                 data := d },
                             ContentBlock.text "Describe this image."] }] := by
  obtain ⟨bytes, _, ha, hm⟩ := apiCall_mem_run h
  subst hm
  exact ⟨ha, image_data_of bytes, rfl⟩

/-- Witness for C4 at a concrete run. -/
theorem payload_shape_fixed_agent_witness :
    agent_id = agent_id ∧
    ∃ d, [buildMessage [5]] =
      [{ role := "user",
         content := [ContentBlock.image
                       { type := "base64",
                         media_type := "image/jpeg",
                         data := d },
                     ContentBlock.text "Describe this image."] }] :=
  payload_shape_fixed_agent (some "key") (FetchResult.ok [5]) (ApiResult.ok "r")
    agent_id [buildMessage [5]] (by simp [run, falsy])

/-- Claim C5: in every run that passes the credential check, the run
performs exactly one outbound HTTP GET, and its target is the fixed
image URL, for every fetch and API outcome. -/
theorem single_get_fixed_url (tok : Option String) (fetch : FetchResult)
    (api : ApiResult) (h : falsy tok = false) :
    (run tok fetch api).1.filter isGet = [Event.httpGet image_url] := by
  cases fetch <;> cases api <;> simp [run, h, isGet]

/-- Witness for C5 at a concrete run whose fetch fails. -/
theorem single_get_fixed_url_witness :
    (run (some "key") (FetchResult.err "boom") (ApiResult.ok "r")).1.filter isGet =
      [Event.httpGet image_url] :=
  single_get_fixed_url (some "key") (FetchResult.err "boom") (ApiResult.ok "r")
    (by decide)

/-- Claim C6: in every run in which the API call returns a response
object, that response is printed to standard output. -/
theorem response_printed (tok : Option String) (fetch : FetchResult)
    (api : ApiResult) (bytes : List Nat) (r : String)
    (hf : falsy tok = false) (hb : fetch = FetchResult.ok bytes)
    (hr : api = ApiResult.ok r) :
    Event.printResponse r ∈ (run tok fetch api).1 := by
  subst hb
  subst hr
  simp [run, hf]

/-- Witness for C6 at a concrete run. -/
theorem response_printed_witness :
    Event.printResponse "the response" ∈
      (run (some "key") (FetchResult.ok [5]) (ApiResult.ok "the response")).1 :=
  response_printed (some "key") (FetchResult.ok [5]) (ApiResult.ok "the response")
    [5] "the response" (by decide) rfl rfl

end TestImage

namespace TestImage

/-- Claim C7: the credential check is the only error handling: exit 1
happens exactly when the credential is falsy, and a failing fetch or a
failing API call makes the run terminate with that error raised,
uncaught. -/
theorem only_credential_check_handled (tok : Option String)
    (fetch : FetchResult) (api : ApiResult) :
    ((run tok fetch api).2 = Outcome.exited 1 ↔ falsy tok = true) ∧
    (∀ e, falsy tok = false → fetch = FetchResult.err e →
      (run tok fetch api).2 = Outcome.raised e) ∧
    (∀ bytes e, falsy tok = false → fetch = FetchResult.ok bytes →
      api = ApiResult.err e → (run tok fetch api).2 = Outcome.raised e) := by
  by_cases hf : falsy tok <;> cases fetch <;> cases api <;> simp [run, hf]

/-- Witness for C7: a failing fetch propagates as an uncaught error. -/
theorem only_credential_check_handled_witness :
    (run (some "key") (FetchResult.err "neterr") (ApiResult.ok "r")).2 =
      Outcome.raised "neterr" :=
  (only_credential_check_handled (some "key") (FetchResult.err "neterr")
      (ApiResult.ok "r")).2.1 "neterr" (by decide) rfl

/-- Claim C8: the run is a strict linear sequence: a falsy credential
ends the run with only the error print and no network event; every API
call is preceded by the HTTP GET; every printed response is preceded,
in order, by the GET, the API call carrying the encoded bytes, and the
output header. -/
theorem run_linear_sequence (tok : Option String) (fetch : FetchResult)
    (api : ApiResult) :
    (falsy tok = true →
      (run tok fetch api).1 = [Event.printLine errorMessage] ∧
      ∀ e ∈ (run tok fetch api).1, isNetwork e = false) ∧
    (∀ a ms, Event.apiCall a ms ∈ (run tok fetch api).1 →
      List.Sublist [Event.httpGet image_url, Event.apiCall a ms]
        (run tok fetch api).1) ∧
    (∀ r, Event.printResponse r ∈ (run tok fetch api).1 →
      ∃ bytes, fetch = FetchResult.ok bytes ∧
        List.Sublist
          [Event.httpGet image_url, Event.apiCall agent_id [buildMessage bytes],
           Event.printLine "Response:", Event.printResponse r]
          (run tok fetch api).1) := by
  refine ⟨?_, ?_, ?_⟩
  · intro hf
    refine ⟨by simp [run, hf], ?_⟩
    intro e he
    have : e = Event.printLine errorMessage := by simpa [run, hf] using he
    rw [this]
    rfl
  · intro a ms h
    obtain ⟨bytes, hb, ha, hm⟩ := apiCall_mem_run h
    subst hb
    subst ha
    subst hm
    by_cases hf : falsy tok
    · simp [run, hf] at h
    · cases api <;> simp [run, hf]
  · intro r h
    by_cases hf : falsy tok
    · simp [run, hf] at h
    · cases fetch with
      | err e => simp [run, hf] at h
      | ok bytes =>
        cases api with
        | err e => simp [run, hf] at h
        | ok resp =>
          have : r = resp := by simpa [run, hf] using h
          subst this
          exact ⟨bytes, rfl, by simp [run, hf]⟩

/-- Witness for C8: the falsy-credential branch at a concrete input. -/
theorem run_linear_sequence_witness :
    (run none (FetchResult.ok [9]) (ApiResult.ok "r")).1 =
      [Event.printLine errorMessage] :=
  ((run_linear_sequence none (FetchResult.ok [9]) (ApiResult.ok "r")).1 rfl).1

/-- Claim C9: an empty `LETTA_API_KEY` behaves exactly like an unset
one: same events and same exit-1 outcome, no network call. -/
theorem empty_key_like_missing (fetch : FetchResult) (api : ApiResult) :
    run (some "") fetch api = run none fetch api ∧
    run (some "") fetch api =
      ([Event.printLine errorMessage], Outcome.exited 1) := by
  constructor <;> rfl

/-- Claim C10: payload construction is deterministic: two runs with the
same credential and the same fetched bytes produce identical API calls,
namely the fixed agent id with the single built message. -/
theorem payload_deterministic (tok : Option String) (bytes : List Nat)
    (api1 api2 : ApiResult) (a1 a2 : String) (ms1 ms2 : List MessagePayload)
    (h1 : Event.apiCall a1 ms1 ∈ (run tok (FetchResult.ok bytes) api1).1)
    (h2 : Event.apiCall a2 ms2 ∈ (run tok (FetchResult.ok bytes) api2).1) :
    a1 = a2 ∧ ms1 = ms2 ∧ ms1 = [buildMessage bytes] := by
  obtain ⟨b1, hb1, ha1, hm1⟩ := apiCall_mem_run h1
  obtain ⟨b2, hb2, ha2, hm2⟩ := apiCall_mem_run h2
  have e1 : bytes = b1 := by injection hb1
  have e2 : bytes = b2 := by injection hb2
  subst e1
  have e3 : b2 = bytes := e2.symm
  subst e3
  exact ⟨ha1.trans ha2.symm, hm1.trans hm2.symm, hm1⟩

/-- Witness for C10 at two concrete runs differing in the API outcome. -/
theorem payload_deterministic_witness :
    agent_id = agent_id ∧
    ([buildMessage [1]] : List MessagePayload) = [buildMessage [1]] ∧
    ([buildMessage [1]] : List MessagePayload) = [buildMessage [1]] :=
  payload_deterministic (some "key") [1] (ApiResult.ok "x") (ApiResult.err "y")
    agent_id agent_id [buildMessage [1]] [buildMessage [1]]
    (by simp [run, falsy]) (by simp [run, falsy])

end TestImage
